import Mathlib

/-!
Shallow embedding of the `tekton-pipelines` operand of the ssp-operator
(`internal/operands/tekton-pipelines/tekton-pipelines.go`) and proofs about
its reconciliation behaviour.

Kubernetes / Tekton API objects are embedded by their fields that the operand
reads or writes (name, namespace, labels, the pipeline spec parameters), with
one aggregate `Rest`/`Data`/`Rules` field standing for the remaining payload
that the operand only copies wholesale.  Go slice aliasing is made explicit:
the operand struct's slices are threaded as state and the reconcile closures
write through their element pointers exactly where the Go code does.

Helpers of the `common` package that are not part of this repository's source
(the create-or-update engine, `CollectResourceStatus`, `DeleteAll`, label
stamping) are modelled from the spec; their doc comments say so.  The ambient
globals `common.GetOperatorVersion()` and `common.GetVirtioImage()` are passed
as explicit `operatorVersion` / `virtioImage` parameters.
-/

namespace Tekton

/-- Embeds `pipeline.ParamValue` (fields `Type`, `StringVal`); the Go field
`Type` is rendered `Typ` because `Type` is reserved in Lean. -/
structure ParamValue where
  Typ : String
  StringVal : String
deriving DecidableEq, Repr

/-- Embeds `pipeline.ParamTypeString`. -/
def ParamTypeString : String := "string"

/-- Embeds a `pipeline.ParamSpec` entry of `PipelineSpec.Params`
(fields `Name`, `Default`). -/
structure ParamSpec where
  Name : String
  Default : Option ParamValue
deriving DecidableEq, Repr

/-- Embeds `pipeline.PipelineSpec`: the `Params` list the operand rewrites,
plus an aggregate `Rest` for every other spec field (tasks, workspaces, ...)
which the operand only ever copies as a whole. -/
structure PipelineSpec where
  Params : List ParamSpec
  Rest : String
deriving DecidableEq, Repr

/-- Embeds `pipeline.Pipeline` (metadata name / namespace / labels and spec). -/
structure Pipeline where
  Name : String
  Namespace : String
  Labels : List (String × String)
  Spec : PipelineSpec
deriving DecidableEq, Repr

/-- Embeds `v1.ConfigMap`. -/
structure ConfigMap where
  Name : String
  Namespace : String
  Labels : List (String × String)
  Data : List (String × String)
deriving DecidableEq, Repr

/-- Embeds `rbac.Subject` (the fields the operand touches). -/
structure Subject where
  Kind : String
  Name : String
  Namespace : String
deriving DecidableEq, Repr

/-- Embeds `rbac.RoleBinding`; `RoleRef` is kept as an aggregate string. -/
structure RoleBinding where
  Name : String
  Namespace : String
  Labels : List (String × String)
  Subjects : List Subject
  RoleRef : String
deriving DecidableEq, Repr

/-- Embeds `v1.ServiceAccount`. -/
structure ServiceAccount where
  Name : String
  Namespace : String
  Labels : List (String × String)
deriving DecidableEq, Repr

/-- Embeds `rbac.ClusterRole` (cluster scoped, no namespace); `Rules` is an
aggregate string for the rule payload. -/
structure ClusterRole where
  Name : String
  Labels : List (String × String)
  Rules : String
deriving DecidableEq, Repr

/-- Value-level embedding of the generated k8s `DeepCopy`: it returns a
structurally equal object sharing no references with the original.  Aliasing
is modelled explicitly through state write-backs, so at value level a deep
copy is the identity. -/
def Pipeline.DeepCopy (p : Pipeline) : Pipeline := p

/-- Value-level embedding of `ConfigMap.DeepCopy`, see `Pipeline.DeepCopy`. -/
def ConfigMap.DeepCopy (cm : ConfigMap) : ConfigMap := cm

/-- Value-level embedding of `RoleBinding.DeepCopy`, see `Pipeline.DeepCopy`. -/
def RoleBinding.DeepCopy (rb : RoleBinding) : RoleBinding := rb

/-- Value-level embedding of `ServiceAccount.DeepCopy`, see `Pipeline.DeepCopy`. -/
def ServiceAccount.DeepCopy (sa : ServiceAccount) : ServiceAccount := sa

/-- Value-level embedding of `ClusterRole.DeepCopy`, see `Pipeline.DeepCopy`. -/
def ClusterRole.DeepCopy (cr : ClusterRole) : ClusterRole := cr

/-- Embeds the constant `namespacePattern = "^(openshift|kube)-"`. -/
def namespacePattern : String := "^(openshift|kube)-"

/-- Embeds the constant `operandName = "tekton-pipelines"`. -/
def operandName : String := "tekton-pipelines"

/-- Embeds `operandComponent = common.AppComponentTektonPipelines`
(the component label value of this operand). -/
def operandComponent : String := "tektonPipelines"

/-- Embeds the constant `tektonCrd = "tasks.tekton.dev"`. -/
def tektonCrd : String := "tasks.tekton.dev"

/-- Embeds Go's `strings.HasPrefix s pre` structurally over the character
list of the string (kernel-computable, unlike `String.startsWith`). -/
def strStartsWith (s pre : String) : Bool :=
  List.isPrefixOf pre.data s.data

/-- Embeds `namespaceRegex.MatchString` for the anchored pattern
`^(openshift|kube)-`: such a match succeeds exactly on strings starting with
`"openshift-"` or `"kube-"`. -/
def namespaceRegexMatch (s : String) : Bool :=
  strStartsWith s "openshift-" || strStartsWith s "kube-"

/-- Embeds the `tektonPipelines` operand struct: the five slices taken from
the bundle (`New` copies the slice headers, so the backing arrays stay
shared with the bundle). -/
structure tektonPipelines where
  pipelines : List Pipeline
  configMaps : List ConfigMap
  roleBindings : List RoleBinding
  serviceAccounts : List ServiceAccount
  clusterRoles : List ClusterRole
deriving DecidableEq, Repr

/-- Embeds `ssp.TektonPipelines` (the `spec.tektonPipelines` stanza of the
SSP custom resource), carrying the namespace override. -/
structure TektonPipelines where
  Namespace : String
deriving DecidableEq, Repr

/-- Embeds the `spec.featureGates` stanza. -/
structure FeatureGates where
  DeployTektonTaskResources : Bool
deriving DecidableEq, Repr

/-- Embeds the SSP custom resource spec; the Go pointer
`*ssp.TektonPipelines` becomes an `Option`. -/
structure SSPSpec where
  FeatureGates : FeatureGates
  TektonPipelines : Option TektonPipelines
deriving DecidableEq, Repr

/-- Embeds the SSP status (only `ObservedVersion` is read). -/
structure SSPStatus where
  ObservedVersion : String
deriving DecidableEq, Repr

/-- Embeds the SSP custom resource instance carried by a request. -/
structure SSP where
  Namespace : String
  Spec : SSPSpec
  Status : SSPStatus
deriving DecidableEq, Repr

/-- Embeds `common.Request`: the SSP instance plus the informer-cached list
of CRD names backing `request.CrdList.CrdExists`. -/
structure Request where
  Instance : SSP
  CrdList : List String
deriving DecidableEq, Repr

/-- Embeds `request.CrdList.CrdExists`: membership in the cached CRD list. -/
def CrdExists (crds : List String) (crd : String) : Bool :=
  crds.contains crd

/-- One typed cluster object, the payload of `client.Object` restricted to the
five kinds this operand manages. -/
inductive ClusterObject where
  | pipeline (p : Pipeline)
  | configMap (cm : ConfigMap)
  | roleBinding (rb : RoleBinding)
  | serviceAccount (sa : ServiceAccount)
  | clusterRole (cr : ClusterRole)
deriving DecidableEq, Repr

/-- Embeds `client.Object.GetName()`. -/
def ClusterObject.GetName : ClusterObject → String
  | .pipeline p => p.Name
  | .configMap cm => cm.Name
  | .roleBinding rb => rb.Name
  | .serviceAccount sa => sa.Name
  | .clusterRole cr => cr.Name

/-- Embeds `client.Object.GetNamespace()` (empty for cluster-scoped kinds). -/
def ClusterObject.GetNamespace : ClusterObject → String
  | .pipeline p => p.Namespace
  | .configMap cm => cm.Namespace
  | .roleBinding rb => rb.Namespace
  | .serviceAccount sa => sa.Namespace
  | .clusterRole _ => ""

/-- Kind tag of an object, part of its cluster identity. -/
def ClusterObject.kind : ClusterObject → String
  | .pipeline _ => "Pipeline"
  | .configMap _ => "ConfigMap"
  | .roleBinding _ => "RoleBinding"
  | .serviceAccount _ => "ServiceAccount"
  | .clusterRole _ => "ClusterRole"

/-- Cluster identity key: kind, namespace, name. -/
def ClusterObject.key (o : ClusterObject) : String × String × String :=
  (o.kind, o.GetNamespace, o.GetName)

/-- Modelled from the spec: the ownership/application labels stamped on every
created or updated object (`WithAppLabels(operandName, operandComponent)`;
the `common` helper is not part of this repository's source). -/
def appLabels : List (String × String) :=
  [("app.kubernetes.io/name", operandName),
   ("app.kubernetes.io/component", operandComponent),
   ("app.kubernetes.io/managed-by", "ssp-operator")]

/-- Modelled from the spec: merge the app labels into an object's label set,
overriding existing entries for the same keys. -/
def mergeAppLabels (ls : List (String × String)) : List (String × String) :=
  ls.filter (fun kv => !(appLabels.any (fun al => al.1 == kv.1))) ++ appLabels

/-- Modelled from the spec: label stamping on each object kind. -/
def ClusterObject.withAppLabels : ClusterObject → ClusterObject
  | .pipeline p => .pipeline { p with Labels := mergeAppLabels p.Labels }
  | .configMap cm => .configMap { cm with Labels := mergeAppLabels cm.Labels }
  | .roleBinding rb => .roleBinding { rb with Labels := mergeAppLabels rb.Labels }
  | .serviceAccount sa => .serviceAccount { sa with Labels := mergeAppLabels sa.Labels }
  | .clusterRole cr => .clusterRole { cr with Labels := mergeAppLabels cr.Labels }

/-- The live cluster state: a list of typed objects, identified by key. -/
abbrev Cluster := List ClusterObject

/-- Gateway read: find the live object with the given key. -/
def clusterGet (c : Cluster) (k : String × String × String) : Option ClusterObject :=
  c.find? (fun o => o.key == k)

/-- Gateway write: replace the object with the same key, or append. -/
def clusterPut (c : Cluster) (o : ClusterObject) : Cluster :=
  if (c.find? (fun x => x.key == o.key)).isSome then
    c.map (fun x => if x.key == o.key then o else x)
  else
    c ++ [o]

/-- Gateway delete: remove every object with the given key. -/
def clusterRemove (c : Cluster) (k : String × String × String) : Cluster :=
  c.filter (fun x => !(x.key == k))

/-- One Cluster Gateway call, recorded for observability of the embedding. -/
inductive GatewayCall where
  | get (k : String × String × String)
  | create (o : ClusterObject)
  | update (o : ClusterObject)
  | delete (k : String × String × String)
deriving DecidableEq, Repr

/-- Whether a gateway call mutates cluster state. -/
def GatewayCall.isWrite : GatewayCall → Bool
  | .get _ => false
  | .create _ => true
  | .update _ => true
  | .delete _ => true

/-- Embeds `common.OperationResult` (`Created` / `Updated` / `Unchanged`). -/
inductive OperationResult where
  | Created
  | Updated
  | Unchanged
deriving DecidableEq, Repr

/-- Embeds `common.ReconcileResult`: the post-reconcile resource paired with
its operation result. -/
structure ReconcileResult where
  Resource : ClusterObject
  OperationResult : OperationResult
deriving DecidableEq, Repr

/-- Modelled from the spec: the `common.CreateOrUpdate` builder (not part of
this repository's source): look the object up by key; if absent, create the
label-stamped desired object (`Created`); if present, apply the update
function to (new, found), stamp labels, and either leave the cluster alone
(`Unchanged`) or write the merged object back (`Updated`). -/
def createOrUpdate (cluster : Cluster) (newObj : ClusterObject)
    (updateFn : ClusterObject → ClusterObject → ClusterObject) :
    Cluster × ReconcileResult × List GatewayCall :=
  let labeled := newObj.withAppLabels
  match clusterGet cluster newObj.key with
  | none =>
      (clusterPut cluster labeled, ⟨labeled, .Created⟩,
        [.get newObj.key, .create labeled])
  | some found =>
      let merged := (updateFn labeled found).withAppLabels
      if merged = found then
        (cluster, ⟨found, .Unchanged⟩, [.get newObj.key])
      else
        (clusterPut cluster merged, ⟨merged, .Updated⟩,
          [.get newObj.key, .update merged])

/-- Modelled from the spec: the default merge of `common.CreateOrUpdate` when
no `UpdateFunc` is given — the live state is fully replaced by desired
state. -/
def replaceUpdateFn (newObj _found : ClusterObject) : ClusterObject := newObj

/-- Embeds the `UpdateFunc` closure of `reconcileTektonPipelinesFuncs`
(lines 144–156): `foundPipeline.Spec = newPipeline.Spec`, then every param
whose name has prefix `"virtioContainer"` gets its default replaced by the
dynamically resolved virtio image value. -/
def pipelineUpdateFunc (virtioImage : String) (newP foundP : Pipeline) : Pipeline :=
  let spec := newP.Spec
  let params := spec.Params.map (fun param =>
    if strStartsWith param.Name "virtioContainer" then
      { param with Default := some { Typ := ParamTypeString, StringVal := virtioImage } }
    else
      param)
  { foundP with Spec := { spec with Params := params } }

/-- Lifts `pipelineUpdateFunc` to cluster objects; the non-pipeline branch is
unreachable because `createOrUpdate` only pairs objects of equal key (hence
equal kind). -/
def pipelineUpdateFn (virtioImage : String) (newObj found : ClusterObject) : ClusterObject :=
  match newObj, found with
  | .pipeline np, .pipeline fp => .pipeline (pipelineUpdateFunc virtioImage np fp)
  | _, _ => found

/-- Embeds the namespace-override assignment of the pipeline closure
(lines 138–140): if `spec.tektonPipelines.namespace` is set, write it into
the (shared) pipeline object. -/
def pipelineSubmitted (request : Request) (p : Pipeline) : Pipeline :=
  match request.Instance.Spec.TektonPipelines with
  | some tp =>
      if tp.Namespace ≠ "" then { p with Namespace := tp.Namespace } else p
  | none => p

/-- Embeds the namespace-override assignment of the config-map closure
(lines 168–170). -/
def configMapSubmitted (request : Request) (cm : ConfigMap) : ConfigMap :=
  match request.Instance.Spec.TektonPipelines with
  | some tp =>
      if tp.Namespace ≠ "" then { cm with Namespace := tp.Namespace } else cm
  | none => cm

/-- Embeds the body of the service-account closure (lines 193–196): default
the namespace from the request instance when unset. -/
def serviceAccountSubmitted (request : Request) (sa : ServiceAccount) : ServiceAccount :=
  if sa.Namespace = "" then { sa with Namespace := request.Instance.Namespace } else sa

/-- Embeds the body of the role-binding closure (lines 225–232): default the
binding namespace from the request instance when unset, then rewrite every
subject's namespace to the request instance namespace. -/
def roleBindingSubmitted (request : Request) (rb : RoleBinding) : RoleBinding :=
  let ns := request.Instance.Namespace
  let rb1 := if rb.Namespace = "" then { rb with Namespace := ns } else rb
  { rb1 with Subjects := rb1.Subjects.map (fun subject => { subject with Namespace := ns }) }

/-- Defunctionalized `common.ReconcileFunc`: the closures the factories build
are identified by the kind they handle and the index of the slice element
whose pointer they capture; `runReconcileFunc` is their semantics. -/
inductive ReconcileFuncDesc where
  | clusterRole (i : Nat)
  | pipeline (i : Nat)
  | configMap (i : Nat)
  | roleBinding (i : Nat)
  | serviceAccount (i : Nat)
deriving DecidableEq, Repr

/-- Embeds `reconcileClusterRolesFuncs` (lines 206–218): one closure per
bundle cluster role. -/
def reconcileClusterRolesFuncs (crs : List ClusterRole) : List ReconcileFuncDesc :=
  (List.range crs.length).map ReconcileFuncDesc.clusterRole

/-- Embeds `reconcileTektonPipelinesFuncs` (lines 133–161): one closure per
bundle pipeline. -/
def reconcileTektonPipelinesFuncs (ps : List Pipeline) : List ReconcileFuncDesc :=
  (List.range ps.length).map ReconcileFuncDesc.pipeline

/-- Embeds `reconcileConfigMapsFuncs` (lines 163–178): one closure per bundle
config map. -/
def reconcileConfigMapsFuncs (cms : List ConfigMap) : List ReconcileFuncDesc :=
  (List.range cms.length).map ReconcileFuncDesc.configMap

/-- Embeds `reconcileRoleBindingsFuncs` (lines 220–240): one closure per
bundle role binding. -/
def reconcileRoleBindingsFuncs (rbs : List RoleBinding) : List ReconcileFuncDesc :=
  (List.range rbs.length).map ReconcileFuncDesc.roleBinding

/-- Embeds the skip test of `reconcileServiceAccountsFuncs` (lines 185–190):
skip when the namespace override is set, fails the `^(openshift|kube)-`
pattern, and the account name is `"pipeline"`. -/
def saSkip (r : Request) (sa : ServiceAccount) : Bool :=
  match r.Instance.Spec.TektonPipelines with
  | some tp =>
      if tp.Namespace ≠ "" then
        !namespaceRegexMatch tp.Namespace && sa.Name == "pipeline"
      else false
  | none => false

/-- Embeds `reconcileServiceAccountsFuncs` (lines 180–204): one closure per
bundle service account, except the ones the skip test drops. -/
def reconcileServiceAccountsFuncs (r : Request) (sas : List ServiceAccount) :
    List ReconcileFuncDesc :=
  (List.range sas.length).filterMap (fun i =>
    match sas[i]? with
    | some sa =>
        if saSkip r sa then none else some (ReconcileFuncDesc.serviceAccount i)
    | none => none)

/-- The state a reconcile closure acts on: the operand struct (whose slices
the closures mutate through the captured element pointers) and the cluster. -/
structure OpState where
  operand : tektonPipelines
  cluster : Cluster
deriving DecidableEq, Repr

/-- Placeholder result for an out-of-range descriptor index; unreachable for
descriptors produced by the factories above. -/
def outOfRangeResult : ReconcileResult :=
  ⟨.clusterRole ⟨"", [], ""⟩, .Unchanged⟩

/-- Semantics of one reconcile closure (the bodies at lines 137–158, 167–175,
192–201, 210–215, 224–237): read the slice element the closure captured,
apply the request-scoped override by writing through the element pointer
(hence into the shared slice), and run the create-or-update engine on it. -/
def runReconcileFunc (virtioImage : String) (request : Request) (s : OpState) :
    ReconcileFuncDesc → OpState × ReconcileResult × List GatewayCall
  | .clusterRole i =>
      match s.operand.clusterRoles[i]? with
      | some cr =>
          let (c, res, calls) := createOrUpdate s.cluster (.clusterRole cr) replaceUpdateFn
          ({ s with cluster := c }, res, calls)
      | none => (s, outOfRangeResult, [])
  | .pipeline i =>
      match s.operand.pipelines[i]? with
      | some p0 =>
          let p := pipelineSubmitted request p0
          let operand := { s.operand with pipelines := s.operand.pipelines.set i p }
          let (c, res, calls) :=
            createOrUpdate s.cluster (.pipeline p) (pipelineUpdateFn virtioImage)
          ({ operand := operand, cluster := c }, res, calls)
      | none => (s, outOfRangeResult, [])
  | .configMap i =>
      match s.operand.configMaps[i]? with
      | some cm0 =>
          let cm := configMapSubmitted request cm0
          let operand := { s.operand with configMaps := s.operand.configMaps.set i cm }
          let (c, res, calls) := createOrUpdate s.cluster (.configMap cm) replaceUpdateFn
          ({ operand := operand, cluster := c }, res, calls)
      | none => (s, outOfRangeResult, [])
  | .roleBinding i =>
      match s.operand.roleBindings[i]? with
      | some rb0 =>
          let rb := roleBindingSubmitted request rb0
          let operand := { s.operand with roleBindings := s.operand.roleBindings.set i rb }
          let (c, res, calls) := createOrUpdate s.cluster (.roleBinding rb) replaceUpdateFn
          ({ operand := operand, cluster := c }, res, calls)
      | none => (s, outOfRangeResult, [])
  | .serviceAccount i =>
      match s.operand.serviceAccounts[i]? with
      | some sa0 =>
          let sa := serviceAccountSubmitted request sa0
          let operand :=
            { s.operand with serviceAccounts := s.operand.serviceAccounts.set i sa }
          let (c, res, calls) := createOrUpdate s.cluster (.serviceAccount sa) replaceUpdateFn
          ({ operand := operand, cluster := c }, res, calls)
      | none => (s, outOfRangeResult, [])

/-- Modelled from the spec: `common.CollectResourceStatus` (not part of this
repository's source) executes the reconcile functions in order and collects
one result per function; the gateway of this embedding never fails, so the
fail-fast error channel of the engine is never taken. -/
def CollectResourceStatus (virtioImage : String) (request : Request) :
    OpState → List ReconcileFuncDesc → OpState × List ReconcileResult × List GatewayCall
  | s, [] => (s, [], [])
  | s, d :: ds =>
      let step := runReconcileFunc virtioImage request s d
      let rest := CollectResourceStatus virtioImage request step.1 ds
      (rest.1, step.2.1 :: rest.2.1, step.2.2 ++ rest.2.2)

/-- Embeds `isUpgradingNow` (lines 129–131): the recorded observed version
differs from the running operator version; `common.GetOperatorVersion()` is
the explicit `operatorVersion` parameter. -/
def isUpgradingNow (operatorVersion : String) (request : Request) : Bool :=
  request.Instance.Status.ObservedVersion != operatorVersion

/-- Embeds the feature-gate log message at line 75. -/
def featureGateOffMessage : String :=
  "Tekton Pipelines resources were not deployed, because spec.featureGates.deployTektonTaskResources is set to false"

/-- Embeds the error message of line 79. -/
def missingCrdMessage : String :=
  "Tekton CRD " ++ tektonCrd ++ " does not exist"

/-- Embeds the revert log message of line 97 for one result. -/
def revertMessage (r : ReconcileResult) : String :=
  "Changes reverted in tekton pipeline: " ++ r.Resource.GetName

/-- Embeds the function-list assembly of `Reconcile` (lines 82–87):
cluster roles, then pipelines, config maps, role bindings, and the
service-account factory that also sees the request. -/
def tektonReconcileFuncs (request : Request) (t : tektonPipelines) :
    List ReconcileFuncDesc :=
  reconcileClusterRolesFuncs t.clusterRoles ++
  reconcileTektonPipelinesFuncs t.pipelines ++
  reconcileConfigMapsFuncs t.configMaps ++
  reconcileRoleBindingsFuncs t.roleBindings ++
  reconcileServiceAccountsFuncs request t.serviceAccounts

/-- Everything `Reconcile` leaves behind: the operand struct (Go's `return`
does not expose it, but the closures may have mutated its shared slices),
the cluster, the Go return pair (`results`, `err`), and the recorded gateway
calls and log lines. -/
structure ReconcileOutcome where
  operand : tektonPipelines
  cluster : Cluster
  results : List ReconcileResult
  err : Option String
  calls : List GatewayCall
  logs : List String
deriving DecidableEq, Repr

/-- Embeds `(*tektonPipelines).Reconcile` (lines 73–101): feature-gate check,
CRD precondition, function-list assembly, engine run, and the
unexpected-revert logging pass over the results. -/
def Reconcile (operatorVersion virtioImage : String) (t : tektonPipelines)
    (request : Request) (cluster : Cluster) : ReconcileOutcome :=
  if !request.Instance.Spec.FeatureGates.DeployTektonTaskResources then
    { operand := t, cluster := cluster, results := [], err := none,
      calls := [], logs := [featureGateOffMessage] }
  else if !CrdExists request.CrdList tektonCrd then
    { operand := t, cluster := cluster, results := [], err := some missingCrdMessage,
      calls := [], logs := [] }
  else
    let out := CollectResourceStatus virtioImage request ⟨t, cluster⟩
      (tektonReconcileFuncs request t)
    let upgradingNow := isUpgradingNow operatorVersion request
    let revertLogs := out.2.1.filterMap (fun r =>
      if !upgradingNow && (r.OperationResult == OperationResult.Updated) then
        some (revertMessage r)
      else none)
    { operand := out.1.operand, cluster := out.1.cluster, results := out.2.1,
      err := none, calls := out.2.2, logs := revertLogs }

/-- Embeds `common.CleanupStatus` as far as the pure gateway model can reach:
a deletion either removed a live object or was a no-op on an absent one
(gateway failures do not occur in this embedding). -/
inductive CleanupStatus where
  | Deleted
  | AlreadyAbsent
deriving DecidableEq, Repr

/-- Embeds `common.CleanupResult`: one entry per object handed to
`DeleteAll`. -/
structure CleanupResult where
  Resource : ClusterObject
  Status : CleanupStatus
deriving DecidableEq, Repr

/-- Modelled from the spec: `common.DeleteAll` (not part of this repository's
source) issues a deletion per object, treating "already absent" as a no-op
result, and collects one `CleanupResult` per object. -/
def DeleteAll : Cluster → List ClusterObject → Cluster × List CleanupResult × List GatewayCall
  | cluster, [] => (cluster, [], [])
  | cluster, o :: os =>
      match clusterGet cluster o.key with
      | some _ =>
          let rest := DeleteAll (clusterRemove cluster o.key) os
          (rest.1, ⟨o, .Deleted⟩ :: rest.2.1, .delete o.key :: rest.2.2)
      | none =>
          let rest := DeleteAll cluster os
          (rest.1, ⟨o, .AlreadyAbsent⟩ :: rest.2.1, .delete o.key :: rest.2.2)

/-- Embeds the object-list assembly of `Cleanup` (lines 104–124): a deep copy
of every object of all five kinds, in the order of the Go loops. -/
def bundleCleanupObjects (t : tektonPipelines) : List ClusterObject :=
  t.pipelines.map (fun p => ClusterObject.pipeline p.DeepCopy) ++
  t.configMaps.map (fun cm => ClusterObject.configMap cm.DeepCopy) ++
  t.roleBindings.map (fun rb => ClusterObject.roleBinding rb.DeepCopy) ++
  t.serviceAccounts.map (fun sa => ClusterObject.serviceAccount sa.DeepCopy) ++
  t.clusterRoles.map (fun cr => ClusterObject.clusterRole cr.DeepCopy)

/-- Embeds `(*tektonPipelines).Cleanup` (lines 103–127): deep-copy every
bundle object and hand the list to `DeleteAll`. -/
def Cleanup (t : tektonPipelines) (cluster : Cluster) :
    Cluster × List CleanupResult × List GatewayCall :=
  DeleteAll cluster (bundleCleanupObjects t)

/-! ### Concrete example inputs used by the closed witnesses below. -/

/-- Example bundle pipeline with a `virtioContainerImage` parameter carrying
the bundle's static default. -/
def exPipeline : Pipeline :=
  { Name := "windows-installer", Namespace := "kubevirt", Labels := [],
    Spec := { Params :=
                [ { Name := "virtioContainerImage",
                    Default := some { Typ := "string", StringVal := "static-img" } },
                  { Name := "winImageDownloadURL", Default := none } ],
              Rest := "tasks" } }

/-- Example operand holding just the one pipeline. -/
def exT : tektonPipelines :=
  { pipelines := [exPipeline], configMaps := [], roleBindings := [],
    serviceAccounts := [], clusterRoles := [] }

/-- Example request: feature gate on, CRD present, namespace override
`"custom-ns"`, primary namespace `"kubevirt"`. -/
def exOverrideRequest : Request :=
  { Instance := { Namespace := "kubevirt",
                  Spec := { FeatureGates := { DeployTektonTaskResources := true },
                            TektonPipelines := some { Namespace := "custom-ns" } },
                  Status := { ObservedVersion := "v1" } },
    CrdList := [tektonCrd] }

/-- Example request with the feature gate off and an empty CRD cache. -/
def exGateOffRequest : Request :=
  { Instance := { Namespace := "kubevirt",
                  Spec := { FeatureGates := { DeployTektonTaskResources := false },
                            TektonPipelines := none },
                  Status := { ObservedVersion := "v1" } },
    CrdList := [] }

/-- Example request with the feature gate on but the Tekton CRD absent. -/
def exNoCrdRequest : Request :=
  { Instance := { Namespace := "kubevirt",
                  Spec := { FeatureGates := { DeployTektonTaskResources := true },
                            TektonPipelines := none },
                  Status := { ObservedVersion := "v1" } },
    CrdList := [] }

/-- Example request whose override `"myapp"` fails the namespace pattern. -/
def exUserNsRequest : Request :=
  { Instance := { Namespace := "kubevirt",
                  Spec := { FeatureGates := { DeployTektonTaskResources := true },
                            TektonPipelines := some { Namespace := "myapp" } },
                  Status := { ObservedVersion := "v1" } },
    CrdList := [tektonCrd] }

/-- Example request whose override `"openshift-myapp"` passes the pattern. -/
def exAdminNsRequest : Request :=
  { Instance := { Namespace := "kubevirt",
                  Spec := { FeatureGates := { DeployTektonTaskResources := true },
                            TektonPipelines := some { Namespace := "openshift-myapp" } },
                  Status := { ObservedVersion := "v1" } },
    CrdList := [tektonCrd] }

/-- Example service account with the reserved name. -/
def exPipelineSA : ServiceAccount :=
  { Name := "pipeline", Namespace := "", Labels := [] }

/-- Request carrying a given recorded (observed) version, for the upgrade
detector examples. -/
def versionRequest (recorded : String) : Request :=
  { Instance := { Namespace := "kubevirt",
                  Spec := { FeatureGates := { DeployTektonTaskResources := true },
                            TektonPipelines := none },
                  Status := { ObservedVersion := recorded } },
    CrdList := [tektonCrd] }

/-! ### Claim theorems. -/

/-- Claim C4: whenever the feature gate
`spec.featureGates.deployTektonTaskResources` is false, `Reconcile` performs
zero Cluster Gateway calls and returns an empty result list and no error,
regardless of the bundle's contents, leaving operand and cluster untouched
and emitting the diagnostic skip log entry. -/
theorem reconcile_feature_gate_off (operatorVersion virtioImage : String)
    (t : tektonPipelines) (request : Request) (cluster : Cluster)
    (h : request.Instance.Spec.FeatureGates.DeployTektonTaskResources = false) :
    Reconcile operatorVersion virtioImage t request cluster =
      { operand := t, cluster := cluster, results := [], err := none,
        calls := [], logs := [featureGateOffMessage] } := by
  simp [Reconcile, h]

/-- Closed instance of `reconcile_feature_gate_off` at a concrete bundle and
gate-off request. -/
theorem reconcile_feature_gate_off_witness :
    Reconcile "v1" "dyn-img" exT exGateOffRequest [] =
      { operand := exT, cluster := [], results := [], err := none,
        calls := [], logs := [featureGateOffMessage] } :=
  reconcile_feature_gate_off "v1" "dyn-img" exT exGateOffRequest [] (by decide)

/-- Claim C5: with the gate on and the CRD `tasks.tekton.dev` absent,
`Reconcile` fails immediately with the descriptive error naming the missing
CRD, returns no results, performs no gateway call (in particular attempts no
mutation), and leaves operand and cluster untouched. -/
theorem reconcile_missing_crd (operatorVersion virtioImage : String)
    (t : tektonPipelines) (request : Request) (cluster : Cluster)
    (hgate : request.Instance.Spec.FeatureGates.DeployTektonTaskResources = true)
    (hcrd : CrdExists request.CrdList tektonCrd = false) :
    Reconcile operatorVersion virtioImage t request cluster =
      { operand := t, cluster := cluster, results := [],
        err := some missingCrdMessage, calls := [], logs := [] }
    ∧ missingCrdMessage = "Tekton CRD tasks.tekton.dev does not exist" := by
  constructor
  · simp [Reconcile, hgate, hcrd]
  · rfl

/-- Closed instance of `reconcile_missing_crd` at a concrete bundle and
missing-CRD request. -/
theorem reconcile_missing_crd_witness :
    Reconcile "v1" "dyn-img" exT exNoCrdRequest [] =
      { operand := exT, cluster := [], results := [],
        err := some missingCrdMessage, calls := [], logs := [] } :=
  (reconcile_missing_crd "v1" "dyn-img" exT exNoCrdRequest [] (by decide) (by decide)).1

/-- Claim C10: the feature-gate check precedes the CRD precondition — with
the gate off, `Reconcile` returns no results, no error and makes no gateway
call even when the Tekton CRD is absent from the cluster cache. -/
theorem reconcile_gate_checked_before_crd (operatorVersion virtioImage : String)
    (t : tektonPipelines) (request : Request) (cluster : Cluster)
    (hgate : request.Instance.Spec.FeatureGates.DeployTektonTaskResources = false)
    (_hcrd : CrdExists request.CrdList tektonCrd = false) :
    (Reconcile operatorVersion virtioImage t request cluster).err = none
    ∧ (Reconcile operatorVersion virtioImage t request cluster).results = []
    ∧ (Reconcile operatorVersion virtioImage t request cluster).calls = [] := by
  simp [Reconcile, hgate]

/-- Closed instance of `reconcile_gate_checked_before_crd`: the gate-off
request also has an empty CRD cache. -/
theorem reconcile_gate_checked_before_crd_witness :
    (Reconcile "v1" "dyn-img" exT exGateOffRequest []).err = none
    ∧ (Reconcile "v1" "dyn-img" exT exGateOffRequest []).results = []
    ∧ (Reconcile "v1" "dyn-img" exT exGateOffRequest []).calls = [] :=
  reconcile_gate_checked_before_crd "v1" "dyn-img" exT exGateOffRequest []
    (by decide) (by decide)

/-- Claim C6: the upgrade detector is a pure function of the recorded
observed version and the running operator version, true exactly when the two
differ; in particular recorded `"1.2.0"` against running `"1.3.0"` is an
upgrade, equal versions are not, and an empty recorded version counts as
upgrading, never as an error. -/
theorem isUpgradingNow_correct :
    (∀ (operatorVersion : String) (request : Request),
        isUpgradingNow operatorVersion request = true ↔
          request.Instance.Status.ObservedVersion ≠ operatorVersion)
    ∧ isUpgradingNow "1.3.0" (versionRequest "1.2.0") = true
    ∧ isUpgradingNow "1.3.0" (versionRequest "1.3.0") = false
    ∧ isUpgradingNow "1.3.0" (versionRequest "") = true := by
  refine ⟨fun operatorVersion request => ?_, by decide, by decide, by decide⟩
  simp [isUpgradingNow]

/-- Membership characterization of the service-account factory output: the
closure for index `i` is produced exactly when the skip test rejects. -/
theorem mem_reconcileServiceAccountsFuncs (r : Request) (sas : List ServiceAccount)
    (i : Nat) (h : i < sas.length) :
    ReconcileFuncDesc.serviceAccount i ∈ reconcileServiceAccountsFuncs r sas ↔
      saSkip r sas[i] = false := by
  unfold reconcileServiceAccountsFuncs
  rw [List.mem_filterMap]
  constructor
  · rintro ⟨j, hj, hfj⟩
    rw [List.mem_range] at hj
    rw [List.getElem?_eq_getElem hj] at hfj
    by_cases hs : saSkip r sas[j] = true
    · simp [hs] at hfj
    · rw [Bool.not_eq_true] at hs
      simp only [hs, if_neg Bool.false_ne_true, Option.some.injEq] at hfj
      cases hfj
      exact hs
  · intro hs
    refine ⟨i, List.mem_range.mpr h, ?_⟩
    rw [List.getElem?_eq_getElem h]
    simp [hs]

/-- Claim C2: a bundle service account is dropped by the factory (no
reconcile closure, hence neither created, updated, nor reported) exactly
when the namespace override is set, fails the `^(openshift|kube)-` pattern,
and the account is named `"pipeline"`; in every other case its closure is
produced and the object reconciled normally. -/
theorem serviceAccount_skip_rule (r : Request) (sas : List ServiceAccount)
    (i : Nat) (h : i < sas.length) :
    (saSkip r sas[i] = true →
        ReconcileFuncDesc.serviceAccount i ∉ reconcileServiceAccountsFuncs r sas)
    ∧ (saSkip r sas[i] = false →
        ReconcileFuncDesc.serviceAccount i ∈ reconcileServiceAccountsFuncs r sas)
    ∧ (saSkip r sas[i] = true ↔
        ∃ tp, r.Instance.Spec.TektonPipelines = some tp ∧ tp.Namespace ≠ "" ∧
          namespaceRegexMatch tp.Namespace = false ∧ sas[i].Name = "pipeline") := by
  refine ⟨?_, ?_, ?_⟩
  · intro hs hmem
    rw [mem_reconcileServiceAccountsFuncs r sas i h] at hmem
    simp [hs] at hmem
  · intro hs
    exact (mem_reconcileServiceAccountsFuncs r sas i h).mpr hs
  · unfold saSkip
    cases hop : r.Instance.Spec.TektonPipelines with
    | none => simp
    | some tp =>
        by_cases hne : tp.Namespace = ""
        · simp [hne]
        · simp [hne, Bool.and_eq_true, Bool.not_eq_true', beq_iff_eq]

/-- Closed instance of `serviceAccount_skip_rule`: with override `"myapp"`
the `"pipeline"` account's closure is not produced; with override
`"openshift-myapp"` it is. -/
theorem serviceAccount_skip_rule_witness :
    ReconcileFuncDesc.serviceAccount 0 ∉
      reconcileServiceAccountsFuncs exUserNsRequest [exPipelineSA]
    ∧ ReconcileFuncDesc.serviceAccount 0 ∈
      reconcileServiceAccountsFuncs exAdminNsRequest [exPipelineSA] :=
  ⟨(serviceAccount_skip_rule exUserNsRequest [exPipelineSA] 0 (by decide)).1 (by decide),
   (serviceAccount_skip_rule exAdminNsRequest [exPipelineSA] 0 (by decide)).2.1 (by decide)⟩

/-- Claim C3: the pipeline update merge replaces the live object's entire
spec by the desired spec (the aggregate `Rest` and the parameter list come
from the desired object), and every parameter whose name has the fixed
prefix `"virtioContainer"` — in particular `virtioContainerImage`, which the
last conjunct shows matches the prefix — gets its default replaced by the
dynamically resolved virtio image value instead of the bundle's static
default. -/
theorem pipeline_update_replaces_spec_and_virtio (virtioImage : String)
    (newP foundP : Pipeline) :
    (pipelineUpdateFunc virtioImage newP foundP).Spec.Rest = newP.Spec.Rest
    ∧ (pipelineUpdateFunc virtioImage newP foundP).Spec.Params.length =
        newP.Spec.Params.length
    ∧ (∀ (i : Nat) (param : ParamSpec), newP.Spec.Params[i]? = some param →
        (pipelineUpdateFunc virtioImage newP foundP).Spec.Params[i]? =
          some (if strStartsWith param.Name "virtioContainer" then
                  { param with
                    Default := some { Typ := ParamTypeString, StringVal := virtioImage } }
                else param))
    ∧ strStartsWith "virtioContainerImage" "virtioContainer" = true := by
  refine ⟨rfl, by simp [pipelineUpdateFunc], ?_, by decide⟩
  intro i param hp
  simp [pipelineUpdateFunc, List.getElem?_map, hp]

/-- Closed instance of `pipeline_update_replaces_spec_and_virtio`: the
`virtioContainerImage` parameter of the merged object carries the dynamic
image value, not the bundle's `"static-img"`. -/
theorem pipeline_update_replaces_spec_and_virtio_witness :
    (pipelineUpdateFunc "dyn-img" exPipeline exPipeline).Spec.Params[0]? =
      some { Name := "virtioContainerImage",
             Default := some { Typ := ParamTypeString, StringVal := "dyn-img" } } := by
  have h := (pipeline_update_replaces_spec_and_virtio "dyn-img" exPipeline exPipeline).2.2.1
    0 { Name := "virtioContainerImage",
        Default := some { Typ := "string", StringVal := "static-img" } } (by decide)
  rw [h]
  decide

/-- Claim C8: with a namespace override set on the request, every pipeline
and config map is submitted with its namespace equal to the override, while
a role binding's namespace is defaulted to the request's primary namespace
only when unset (never to the override) and every subject's namespace is
rewritten to the request's primary namespace. -/
theorem namespace_override_propagation (r : Request) (tp : TektonPipelines)
    (hov : r.Instance.Spec.TektonPipelines = some tp) (hns : tp.Namespace ≠ "") :
    (∀ p : Pipeline, (pipelineSubmitted r p).Namespace = tp.Namespace)
    ∧ (∀ cm : ConfigMap, (configMapSubmitted r cm).Namespace = tp.Namespace)
    ∧ (∀ rb : RoleBinding,
        (roleBindingSubmitted r rb).Namespace =
          (if rb.Namespace = "" then r.Instance.Namespace else rb.Namespace)
        ∧ ∀ subject ∈ (roleBindingSubmitted r rb).Subjects,
            subject.Namespace = r.Instance.Namespace) := by
  refine ⟨fun p => ?_, fun cm => ?_, fun rb => ⟨?_, fun subject hmem => ?_⟩⟩
  · simp [pipelineSubmitted, hov, hns]
  · simp [configMapSubmitted, hov, hns]
  · by_cases hrb : rb.Namespace = "" <;> simp [roleBindingSubmitted, hrb]
  · have hsub : (roleBindingSubmitted r rb).Subjects =
        rb.Subjects.map (fun subject => { subject with Namespace := r.Instance.Namespace }) := by
      by_cases hrb : rb.Namespace = "" <;> simp [roleBindingSubmitted, hrb]
    rw [hsub] at hmem
    rcases List.mem_map.mp hmem with ⟨s0, _, rfl⟩
    rfl

/-- Closed instance of `namespace_override_propagation` at the override
request: the pipeline is submitted into `"custom-ns"`. -/
theorem namespace_override_propagation_witness :
    (pipelineSubmitted exOverrideRequest exPipeline).Namespace = "custom-ns" :=
  (namespace_override_propagation exOverrideRequest { Namespace := "custom-ns" }
      rfl (by decide)).1 exPipeline

/-- Claim C7: after the engine returns, `Reconcile` hands back exactly the
engine's result list and no error, and for every result classified
`Updated` while the upgrade detector reports not-upgrading, the
"unexpected revert" log line naming the resource is emitted; the logging
pass is purely diagnostic and alters no result. -/
theorem reconcile_revert_logging (operatorVersion virtioImage : String)
    (t : tektonPipelines) (request : Request) (cluster : Cluster)
    (hgate : request.Instance.Spec.FeatureGates.DeployTektonTaskResources = true)
    (hcrd : CrdExists request.CrdList tektonCrd = true) :
    (Reconcile operatorVersion virtioImage t request cluster).results =
      (CollectResourceStatus virtioImage request ⟨t, cluster⟩
        (tektonReconcileFuncs request t)).2.1
    ∧ (Reconcile operatorVersion virtioImage t request cluster).err = none
    ∧ ∀ r ∈ (Reconcile operatorVersion virtioImage t request cluster).results,
        isUpgradingNow operatorVersion request = false →
        r.OperationResult = OperationResult.Updated →
        revertMessage r ∈ (Reconcile operatorVersion virtioImage t request cluster).logs := by
  have hout :
      Reconcile operatorVersion virtioImage t request cluster =
        { operand := (CollectResourceStatus virtioImage request ⟨t, cluster⟩
              (tektonReconcileFuncs request t)).1.operand,
          cluster := (CollectResourceStatus virtioImage request ⟨t, cluster⟩
              (tektonReconcileFuncs request t)).1.cluster,
          results := (CollectResourceStatus virtioImage request ⟨t, cluster⟩
              (tektonReconcileFuncs request t)).2.1,
          err := none,
          calls := (CollectResourceStatus virtioImage request ⟨t, cluster⟩
              (tektonReconcileFuncs request t)).2.2,
          logs := (CollectResourceStatus virtioImage request ⟨t, cluster⟩
              (tektonReconcileFuncs request t)).2.1.filterMap (fun r =>
                if !(isUpgradingNow operatorVersion request) &&
                    (r.OperationResult == OperationResult.Updated) then
                  some (revertMessage r)
                else none) } := by
    simp [Reconcile, hgate, hcrd]
  rw [hout]
  refine ⟨rfl, rfl, ?_⟩
  intro r hr hup hupd
  exact List.mem_filterMap.mpr ⟨r, hr, by simp [hup, hupd]⟩

/-- Closed instance of `reconcile_revert_logging` at a concrete bundle and
request with the gate on and the CRD present. -/
theorem reconcile_revert_logging_witness :
    (Reconcile "v1" "dyn-img" exT exOverrideRequest []).err = none :=
  (reconcile_revert_logging "v1" "dyn-img" exT exOverrideRequest []
      (by decide) (by decide)).2.1

/-- `DeleteAll` returns one cleanup result per handed-over object, in
order, whose `Resource` is that object. -/
theorem DeleteAll_resources (cluster : Cluster) (os : List ClusterObject) :
    ((DeleteAll cluster os).2.1).map CleanupResult.Resource = os := by
  induction os generalizing cluster with
  | nil => rfl
  | cons o os ih =>
      unfold DeleteAll
      cases h : clusterGet cluster o.key <;> simp [h, ih]

/-- Claim C9: `Cleanup` deep-copies every object across all five kinds in
the bundle and issues a deletion for each, producing exactly one
`CleanupResult` per bundle object — including objects the reconcile pass
would skip, since the cleanup list is built from the full slices — in
bundle order. -/
theorem cleanup_one_result_per_bundle_object (t : tektonPipelines) (cluster : Cluster) :
    ((Cleanup t cluster).2.1).map CleanupResult.Resource = bundleCleanupObjects t
    ∧ (Cleanup t cluster).2.1.length =
        t.pipelines.length + t.configMaps.length + t.roleBindings.length +
          t.serviceAccounts.length + t.clusterRoles.length := by
  have h := DeleteAll_resources cluster (bundleCleanupObjects t)
  refine ⟨h, ?_⟩
  have hlen := congrArg List.length h
  simp only [List.length_map] at hlen
  unfold Cleanup
  rw [hlen]
  simp [bundleCleanupObjects]
  omega

/-- Claim C1 fails on the code: the reconcile closures write the
request-scoped overrides through the captured slice-element pointers into
the operand's shared slices.  At this concrete input, after `Reconcile`
returns, the pipeline stored in the `tektonPipelines` struct has its
namespace changed from `"kubevirt"` to the override `"custom-ns"`, so the
stored objects are not unchanged. -/
theorem reconcile_mutates_shared_bundle :
    (Reconcile "v1" "dyn-img" exT exOverrideRequest []).operand ≠ exT
    ∧ (Reconcile "v1" "dyn-img" exT exOverrideRequest []).operand.pipelines.map
        Pipeline.Namespace = ["custom-ns"]
    ∧ exT.pipelines.map Pipeline.Namespace = ["kubevirt"] := by
  refine ⟨by decide, by decide, by decide⟩

end Tekton
